import Mathlib

/-!
Verification development for the `ape-ganache` plugin (files
`src/ape_ganache/provider.py` and its historical variant
`src/ape_ganache/providers.py`; the package `__init__.py` registers only the
classes from `provider.py`, so `provider.py` is the authoritative module).

Python strings are embedded as `List Char` (`PyStr`); Python `str.replace`
(which replaces every non-overlapping occurrence, left to right) is embedded
as `listReplace`, and `str.startswith` as `leadsWith`.  Fallible Python code
is embedded with `Except`.
-/

deriving instance DecidableEq for Except

namespace ApeGanache

/-- Embedding of a Python `str` as its list of characters. -/
abbrev PyStr := List Char

/-- Embedding of Python `s.startswith(pat)`: `leadsWith pat s` is `true`
exactly when `pat` is an initial segment of `s`. -/
def leadsWith : PyStr → PyStr → Bool
  | [], _ => true
  | _ :: _, [] => false
  | p :: ps, c :: cs => p == c && leadsWith ps cs

/-- Fuel-driven scanner behind `listReplace`; the fuel drops by one per
step and bounds the number of scanning steps, so the definition is
structurally recursive (and hence kernel-reducible). -/
def replaceGo (pat rep : PyStr) : Nat → PyStr → PyStr
  | 0, s => s
  | _ + 1, [] => []
  | f + 1, c :: cs =>
    if pat ≠ [] ∧ leadsWith pat (c :: cs) = true then
      rep ++ replaceGo pat rep f ((c :: cs).drop pat.length)
    else
      c :: replaceGo pat rep f cs

/-- Embedding of Python `s.replace(pat, rep)` for a non-empty `pat`:
replaces every non-overlapping occurrence of `pat` in `s` by `rep`,
scanning left to right.  (For `pat = []` it returns `s` unchanged; the
source never calls `str.replace` with an empty pattern.) -/
def listReplace (pat rep s : PyStr) : PyStr := replaceGo pat rep s.length s

/-- `hasSub s pat` is `true` when `pat` occurs as a contiguous substring
of `s` (Python `pat in s`). -/
def hasSub (s pat : PyStr) : Bool := s.tails.any (fun t => leadsWith pat t)

/-- Embedding of Python `s.replace(pat, rep)` at the `String` level, for
the places where the embedding works with whole strings. -/
def pyStrReplace (s pat rep : String) : String := ⟨listReplace pat.data rep.data s.data⟩

/-! ## Error translation (`GanacheProvider.get_virtual_machine_error`)

From `src/ape_ganache/provider.py`, lines 386-444.  The raised exception is
embedded by its argument list; a `dict` first argument is embedded by the
values sitting under its `"message"` and `"data"` keys.  Python exceptions
raised while evaluating the translation (an `AttributeError` from calling
`.get` on a non-mapping `"data"` value) are embedded with `Except`.
-/

/-- Embedding of the value under the payload's `"data"` key: either a
mapping (with the value under its `"hash"` key, `none` when absent) or any
non-mapping value, on which Python `.get(...)` raises `AttributeError`. -/
inductive PyDataField
  | mapping (hash : Option PyStr)
  | nonMapping
deriving DecidableEq

/-- Embedding of the first exception argument when it is a `dict`:
`message` is the value under `"message"` (`none` when the key is absent, in
which case Python `str(None)` yields `"None"`), `data` the value under
`"data"` (`none` when absent). -/
structure ErrData where
  message : Option PyStr
  data : Option PyDataField
deriving DecidableEq

/-- Embedding of the first positional argument of the raised exception. -/
inductive ErrArg
  | dict (d : ErrData)
  | str (s : PyStr)
  | otherVal
deriving DecidableEq

/-- Embedding of the `raw` dict of the last trace frame (the fields the
source reads: `"op"` and `"memory"`).  Where the source could not obtain a
last frame (no `trace` kwarg and the trace fetch raised), its local `data`
stays the empty dict, embedded as `none` at the call sites below. -/
structure TraceFrameRaw where
  op : PyStr
  memory : List PyStr
deriving DecidableEq

/-- Embedding of the Python exception raised inside the translation. -/
inductive PyExc
  | attributeError
deriving DecidableEq

/-- Result vocabulary of the translation: `vmBase` embeds
`VirtualMachineError(base_err=exception, **kwargs)` (the original exception
wrapped, no message of its own), `vm message` embeds
`VirtualMachineError(message, **kwargs)`, and `contractLogic r` embeds the
(compiler-enriched) `ContractLogicError` with optional revert message. -/
inductive VMError
  | vmBase
  | vm (message : PyStr)
  | contractLogic (revertMessage : Option PyStr)
deriving DecidableEq

/-- Embedding of Python `str(err_data.get("message"))`: `str(None)` is the
four-character string `None`. -/
def pyStrOfOpt : Option PyStr → PyStr
  | none => "None".data
  | some s => s

/-- Python truthiness of the optional `"hash"` value: `None` and the empty
string are falsy. -/
def pyTruthyStr : Option PyStr → Bool
  | none => false
  | some s => s ≠ []

/-- The marker `"VM Exception while processing transaction: "` that Ganache
puts on revert messages (`ganache_prefix` in the source). -/
def ganacheHead : PyStr := "VM Exception while processing transaction: ".data

/-- The first entry of the source's `prefixes` tuple:
`"execution reverted: "` followed by `ganache_prefix`. -/
def extHead : PyStr := "execution reverted: ".data ++ ganacheHead

/-- Embedding of the tail of `get_virtual_machine_error` (the code from the
`if not message:` check onwards): strip the first matching marker with
Python `str.replace` (which removes every occurrence), then classify into
`ContractLogicError` versus `VirtualMachineError`. -/
def translateMessage (message : PyStr) : VMError :=
  if message = [] then .vmBase
  else
    let stripped : Option PyStr :=
      if leadsWith extHead message then some (listReplace extHead [] message)
      else if leadsWith ganacheHead message then some (listReplace ganacheHead [] message)
      else none
    match stripped with
    | none => .vm message
    | some message =>
      if message = "revert".data then .contractLogic none
      else
        let message :=
          if leadsWith "revert ".data message then listReplace "revert ".data [] message
          else message
        .contractLogic (some message)

/-- Embedding of `GanacheProvider.get_virtual_machine_error`.  `args` is the
exception's argument tuple; `lastFrame` is the `raw` dict of the last trace
frame when one is obtainable (from the `trace` kwarg or a fresh
`get_transaction_trace` call), `none` when not (then the source's local
`data` stays the empty dict and its `data.get("op")` is `None`). -/
def get_virtual_machine_error (args : List ErrArg) (lastFrame : Option TraceFrameRaw) :
    Except PyExc VMError := do
  match args with
  | [] => return .vmBase
  | errData :: _ =>
    match errData with
    | .otherVal => return .vmBase
    | .str s => return translateMessage s
    | .dict d =>
      let message := pyStrOfOpt d.message
      -- err_data.get("data", {}).get("hash"); raises AttributeError when the
      -- "data" value is present but is not a mapping.
      let hashVal : Option PyStr ←
        match d.data with
        | none => pure none
        | some (.mapping h) => pure h
        | some .nonMapping => throw .attributeError
      let message :=
        if pyTruthyStr hashVal && message == ganacheHead ++ "revert".data then
          match lastFrame with
          | some fr =>
            if fr.op == "REVERT".data then
              -- "".join([x[2:] for x in data["memory"][4:]])
              let sel := ((fr.memory.drop 4).map (fun x => x.drop 2)).flatten
              if sel ≠ [] then ganacheHead ++ "0x".data ++ sel else message
            else message
          | none => message
        else message
      return translateMessage message

/-! ## Ports and the provider session

From `src/ape_ganache/provider.py`: module constants (lines 42-44), the
`uri` property (lines 174-179) and the port-resolution part of `_start`
(lines 272-294).
-/

def EPHEMERAL_PORTS_START : Int := 49152

def EPHEMERAL_PORTS_END : Int := 60999

def DEFAULT_PORT : Int := 8545

/-- Embedding of the runtime values `self.port` can hold: an integer, the
`"auto"` sentinel string (before `_start` resolves it), or `None`. -/
inductive PortV
  | num (n : Int)
  | auto
  | noneV
deriving DecidableEq

/-- Python truthiness of `self.port` (`if not self.port:`): `None` and `0`
are falsy; any other integer and the string `"auto"` are truthy. -/
def pyTruthyPort : PortV → Bool
  | .noneV => false
  | .auto => true
  | .num n => n != 0

/-- Python `str(...)` / f-string interpolation of the port value. -/
def portStr : PortV → String
  | .num n => toString n
  | .auto => "auto"
  | .noneV => "None"

/-- Errors raised by the embedded code.  `ganacheProviderError` embeds
`GanacheProviderError` (for `notConnectedError` and `invalidForkUrl` the
source's message text is elided); `typeError` and `valueError` embed the
Python builtins `TypeError` and `ValueError`; `extraDataLengthError`
embeds an uncaught `web3` `ExtraDataLengthError`. -/
inductive GanacheErr
  | ganacheProviderError (msg : String)
  | notConnectedError
  | invalidForkUrl
  | typeError
  | valueError
  | extraDataLengthError
deriving DecidableEq

/-- Embedding of the `GanacheProvider.uri` property applied to the current
`self.port` value: raises unless the port is truthy, else formats
`http://127.0.0.1:<port>`. -/
def uriOfPort (p : PortV) : Except GanacheErr String :=
  if !(pyTruthyPort p) then .error .notConnectedError
  else .ok ("http://127.0.0.1:" ++ portStr p)

/-- A provider session as far as `uri` is concerned: the bound port and the
connection handle `self._web3` (`some` once a live connection has been
confirmed, `none` before). -/
structure Session where
  port : PortV
  web3 : Option Unit
deriving DecidableEq

/-- Embedding of the `GanacheProvider.uri` property.  It reads only
`self.port`; `self._web3` plays no part. -/
def uri (s : Session) : Except GanacheErr String := uriOfPort s.port

/-- Embedding of `", ".join(self.attempted_ports)`: the `attempted_ports`
list holds integers, and Python `str.join` raises `TypeError` on any
non-`str` item, so the join only succeeds on the empty list. -/
def pyJoinPorts : List PortV → Except GanacheErr String
  | [] => .ok ""
  | _ :: _ => .error .typeError

/-- Embedding of the collision-retry loop of `GanacheProvider._start`
(lines 283-291).  `left` counts the redraws still allowed before
`attempts == max_attempts` fires (`24` on entry: `attempts` starts at `0`
and the raise happens when the counter reaches `25`, after that redraw but
before its membership recheck); `draws j` embeds the `j`-th result of
`random.randint(EPHEMERAL_PORTS_START, EPHEMERAL_PORTS_END)`. -/
def randLoop (attempted : List PortV) (draws : Nat → Int) :
    Nat → Int → Nat → Except GanacheErr Int
  | left, port, i =>
    if PortV.num port ∈ attempted then
      match left with
      | 0 => do
        let s ← pyJoinPorts attempted
        throw (.ganacheProviderError ("Unable to find an available port. Ports tried: " ++ s))
      | l + 1 => randLoop attempted draws l (draws i) (i + 1)
    else
      .ok port

/-- Embedding of the port-resolution part of `GanacheProvider._start`
(lines 272-294), up to and including the
`self.attempted_ports.append(self.port)` that precedes `self.start()`.
Returns the bound port value and the updated attempted-ports list. -/
def start_resolve_port (port : PortV) (attempted : List PortV) (draws : Nat → Int) :
    Except GanacheErr (PortV × List PortV) := do
  let use_random_port := port == PortV.auto
  if use_random_port then
    -- self.port = None
    -- The next test is evaluated inside the `if use_random_port:` branch,
    -- where `use_random_port` is `True`, so its second conjunct
    -- (`not use_random_port`) can never hold.
    if PortV.num DEFAULT_PORT ∉ attempted ∧ use_random_port = false then
      let p := PortV.num DEFAULT_PORT
      return (p, attempted ++ [p])
    else
      let port0 := draws 0
      let p ← randLoop attempted draws 24 port0 1
      return (PortV.num p, attempted ++ [PortV.num p])
  else
    return (port, attempted ++ [port])

/-! ## Call-tree reconstruction (`GanacheProvider.get_call_tree`)

From `src/ape_ganache/provider.py`, lines 353-384.  The external builder
`get_calltree_from_geth_trace` (from the `evm_trace` library) is embedded
as a function parameter; only the root node's `failed` flag is touched
after it returns.
-/

/-- The two call types the source selects between. -/
inductive CallType
  | callOp
  | createOp
deriving DecidableEq

/-- Embedding of an ape `ReceiptAPI` restricted to the fields
`get_call_tree` reads. -/
structure Receipt where
  data : List Nat
  gas_used : Int
  gas_limit : Int
  contract_address : Option String
  receiver : String
  value : Int
  failed : Bool

/-- Python truthiness of `receipt.contract_address` (`if
receipt.contract_address:`): `None` and the empty string are falsy. -/
def pyTruthyAddr : Option String → Bool
  | none => false
  | some a => a ≠ ""

/-- The keyword arguments `get_call_tree` hands to the external tree
builder `get_calltree_from_geth_trace`. -/
structure BuildArgs where
  gas_cost : Int
  gas_limit : Int
  address : String
  calldata : List Nat
  value : Int
  call_type : CallType
  failed : Bool
deriving DecidableEq

/-- The root node the external builder returns: its `failed` flag plus the
rest of its contents (subcalls and so on), abstracted as `payload` since
the source never touches them. -/
structure EvmCallNode (α : Type) where
  failed : Bool
  payload : α

/-- The argument record `get_call_tree` builds from the receipt:
`method_gas_cost` subtracts the 21000 intrinsic cost and the per-byte
calldata cost (4 per zero byte, 16 per non-zero byte) from `gas_used`; a
truthy `contract_address` selects a CREATE call at that address, otherwise
a CALL at the receiver. -/
def call_tree_args (r : Receipt) : BuildArgs :=
  let data_gas : Int := (r.data.map (fun x => if x = 0 then (4 : Int) else 16)).sum
  let method_gas_cost : Int := r.gas_used - 21000 - data_gas
  if pyTruthyAddr r.contract_address then
    { gas_cost := method_gas_cost, gas_limit := r.gas_limit,
      address := r.contract_address.getD "", calldata := r.data, value := r.value,
      call_type := .createOp, failed := r.failed }
  else
    { gas_cost := method_gas_cost, gas_limit := r.gas_limit,
      address := r.receiver, calldata := r.data, value := r.value,
      call_type := .callOp, failed := r.failed }

/-- Embedding of `GanacheProvider.get_call_tree`: build the tree with the
external builder, then forcibly reset the root's `failed` flag to the
receipt's own failure status (the source comments this as working around a
Ganache bug where a sub-call REVERT trickles to the top-level call). -/
def get_call_tree {α : Type} (builder : BuildArgs → EvmCallNode α) (r : Receipt) :
    EvmCallNode α :=
  let evm_call := builder (call_tree_args r)
  { evm_call with failed := r.failed }

/-! ## Thin RPC wrappers (`set_timestamp`, `revert`)

From `src/ape_ganache/provider.py`, lines 324-327 and 337-341.
-/

/-- Embedding of `GanacheProvider.set_timestamp`: multiply by `10 ** 3`
(seconds to milliseconds), hex-encode (the external `HexBytes(...).hex()`,
embedded as the `encode` parameter), and dispatch `evm_setTime` with the
encoded value as the single parameter. -/
def set_timestamp (encode : Int → String) (new_timestamp : Int) : String × List String :=
  let ts := new_timestamp * 10 ^ 3
  ("evm_setTime", [encode ts])

/-- Embedding of an ape `SnapshotID` (`Union[str, int, bytes]`). -/
inductive SnapshotID
  | int (n : Int)
  | str (s : PyStr)
  | bytes (b : List Nat)
deriving DecidableEq

/-- Digit value of a Unicode decimal digit (category Nd), over the
fragment of the Unicode table this development uses: ASCII `0`-`9` and the
Arabic-Indic digits U+0660-U+0669.  These are characters Python's `int()`
accepts, with their Python digit values; characters outside the fragment
are classified as non-digits. -/
def pyCharDecimalVal (c : Char) : Option Nat :=
  let n := c.toNat
  if 48 ≤ n ∧ n ≤ 57 then some (n - 48)
  else if 1632 ≤ n ∧ n ≤ 1641 then some (n - 1632)
  else none

/-- Numeric-but-not-decimal characters (Unicode Numeric_Type `Digit` or
`Numeric`), over the fragment this development uses: superscript two,
three, one (U+00B2, U+00B3, U+00B9), the vulgar fractions U+00BC-U+00BE,
and the Roman numerals U+2160-U+2182.  Python's `str.isnumeric` accepts
these while `int()` rejects them with `ValueError`. -/
def pyCharNumericNonDecimal (c : Char) : Bool :=
  let n := c.toNat
  n == 178 || n == 179 || n == 185
    || (188 ≤ n && n ≤ 190)
    || (8544 ≤ n && n ≤ 8578)

/-- Python `c.isnumeric()` for one character, over the modelled fragment:
a decimal digit or a numeric-but-not-decimal character. -/
def pyCharNumeric (c : Char) : Bool :=
  (pyCharDecimalVal c).isSome || pyCharNumericNonDecimal c

/-- Embedding of Python `str.isnumeric`: non-empty and every character
numeric. -/
def pyIsNumeric (s : PyStr) : Bool := s ≠ [] && s.all pyCharNumeric

/-- The strings Python `int()` accepts among the isnumeric-true ones:
non-empty and consisting solely of decimal digits (category Nd). -/
def pyIsDecimal (s : PyStr) : Bool :=
  s ≠ [] && s.all (fun c => (pyCharDecimalVal c).isSome)

/-- The integer Python `int(s)` denotes for a string of decimal digits. -/
def pyIntVal (s : PyStr) : Int :=
  s.foldl (fun a c => a * 10 + (((pyCharDecimalVal c).getD 0 : Nat) : Int)) 0

/-- Embedding of Python `int(s)` on an isnumeric-true string: the denoted
integer when every character is a decimal digit, `ValueError` otherwise
(as for the numeric-but-not-decimal strings like the vulgar fraction
U+00BD or the Roman numeral U+216B). -/
def pyInt (s : PyStr) : Except GanacheErr Int :=
  if pyIsDecimal s then .ok (pyIntVal s) else .error .valueError

/-- Embedding of `GanacheProvider.revert`: a snapshot id that is a string
passing `str.isnumeric` is coerced with `int(...)` — which can raise
`ValueError` for numeric-but-not-decimal strings — before `evm_revert` is
dispatched with the (possibly coerced) id as the single parameter. -/
def revert (snapshot_id : SnapshotID) : Except GanacheErr (String × List SnapshotID) :=
  match snapshot_id with
  | .str s =>
    if pyIsNumeric s then do
      let n ← pyInt s
      return ("evm_revert", [SnapshotID.int n])
    else return ("evm_revert", [SnapshotID.str s])
  | x => return ("evm_revert", [x])

/-! ## Launch commands (`build_command`)

From `src/ape_ganache/provider.py`: `GanacheProvider.build_command`
(lines 302-322) and `GanacheForkProvider.build_command` (lines 532-550).
-/

/-- The configuration values `GanacheProvider.build_command` reads (each
comes from a configuration collaborator outside this repository). -/
structure GanacheSettings where
  ganache_bin : String
  port : PortV
  mnemonic : String
  number_of_accounts : Nat
  hd_path : String
  hardfork : String
  gas_price : Int
  unlocked_accounts : List String

/-- Embedding of `GanacheProvider.build_command`. -/
def build_command (g : GanacheSettings) : List String :=
  [g.ganache_bin,
   "--server.port", portStr g.port,
   "--wallet.mnemonic", g.mnemonic,
   "--wallet.totalAccounts", toString g.number_of_accounts,
   "--wallet.hdPath", g.hd_path,
   "--chain.hardfork", g.hardfork,
   "--miner.defaultGasPrice", toString g.gas_price,
   "--chain.vmErrorsOnRPCResponse", "true"]
  ++ g.unlocked_accounts.flatMap (fun a => ["--wallet.unlockedAccounts", a])

/-- The trailing `--fork.blockNumber` arguments: present exactly when a
fork block number is configured. -/
def fork_block_args : Option Int → List String
  | some n => ["--fork.blockNumber", toString n]
  | none => []

/-- Embedding of `GanacheForkProvider.build_command`: refuse (with a
`GanacheProviderError`, before any process is spawned) when the upstream
URL, after `.replace("localhost", "127.0.0.1")`, equals the local node's
own `self.uri`; otherwise extend the base command with `--fork.url` and,
when configured, `--fork.blockNumber`.  (`invalidForkUrl` elides the
source's message text.) -/
def fork_build_command (g : GanacheSettings) (fork_url : String) (block_number : Option Int) :
    Except GanacheErr (List String) :=
  match uriOfPort g.port with
  | .error e => .error e
  | .ok myUri =>
    if pyStrReplace fork_url "localhost" "127.0.0.1" == myUri then
      .error .invalidForkUrl
    else
      .ok (build_command g ++ ["--fork.url", fork_url] ++ fork_block_args block_number)

/-! ## Forked-network connect (`GanacheForkProvider.connect`)

From `src/ape_ganache/provider.py`, lines 508-530: fetch the upstream
genesis block hash (with one PoA-middleware retry on
`ExtraDataLengthError` when the upstream is a `Web3Provider`), compare to
the local genesis hash, and log a warning on mismatch.
-/

/-- Outcome of one `upstream_provider.get_block(0)` attempt. -/
inductive FetchOutcome
  | got (h : Nat)
  | extraDataLengthError
deriving DecidableEq

/-- The mismatch warning text logged by `connect`. -/
def mismatchWarning : String :=
  "Upstream network has mismatching genesis block. This could be an issue with foundry."

/-- Embedding of the genesis-comparison part of
`GanacheForkProvider.connect` (after `super().connect()` has succeeded).
`fetch1` is the first upstream genesis fetch; on `ExtraDataLengthError`
with a `Web3Provider` upstream the source injects PoA middleware and
retries once (`fetch2`, whose own `ExtraDataLengthError` propagates
uncaught); a non-`Web3Provider` upstream turns the error into a
`GanacheProviderError`.  Success returns the list of warnings logged; the
session stays connected. -/
def fork_connect_check (localHash : Nat) (fetch1 : FetchOutcome) (isWeb3Provider : Bool)
    (fetch2 : FetchOutcome) : Except GanacheErr (List String) := do
  let upstreamHash ←
    match fetch1 with
    | .got h => pure h
    | .extraDataLengthError =>
      if isWeb3Provider then
        match fetch2 with
        | .got h => pure h
        | .extraDataLengthError => throw .extraDataLengthError
      else
        throw (.ganacheProviderError "Unable to get genesis block.")
  if localHash ≠ upstreamHash then
    return [mismatchWarning]
  else
    return []

/-! ## Concrete example inputs used by the witnesses -/

/-- A concrete stand-in for the external tree builder, used by the C2
witness: it negates the `failed` flag it was handed, so the final reset is
observable. -/
def builderExample : BuildArgs → EvmCallNode Nat := fun args => ⟨args.failed = false, 7⟩

/-- A concrete receipt for the C2 witness: two zero and two non-zero
calldata bytes, a named contract address, `failed = true`. -/
def receiptExample : Receipt :=
  { data := [0, 1, 0, 255], gas_used := 60000, gas_limit := 100000,
    contract_address := some "0xNew", receiver := "", value := 3, failed := true }

/-- Concrete settings for the C7 witness. -/
def gExample : GanacheSettings :=
  { ganache_bin := "ganache", port := PortV.num 8545,
    mnemonic := "test test test junk", number_of_accounts := 10,
    hd_path := "m/44/60/0", hardfork := "london", gas_price := 2000000000,
    unlocked_accounts := [] }

/-- A concrete REVERT trace frame for the C1 witness: its memory words
past the fourth, with their `0x` markers dropped, join to the selector
string `08c379a0`. -/
def frRevert : TraceFrameRaw :=
  ⟨"REVERT".data,
   ["0x00".data, "0x01".data, "0x02".data, "0x03".data, "0x08c3".data, "0x79a0".data]⟩

/-- A concrete non-REVERT trace frame for the C1 witness. -/
def frPush : TraceFrameRaw := ⟨"PUSH1".data, []⟩

/-- A concrete REVERT trace frame with no memory words (empty selector)
for the C1 witness. -/
def frEmpty : TraceFrameRaw := ⟨"REVERT".data, []⟩

/-! ## General lemmas about the string embedding -/

theorem leadsWith_append_self (l r : PyStr) : leadsWith l (l ++ r) = true := by
  induction l with
  | nil => rfl
  | cons c cs ih => simp [leadsWith, ih]

theorem replaceGo_fuel (pat rep : PyStr) (f : Nat) :
    ∀ (s : PyStr) (g : Nat), s.length ≤ f → s.length ≤ g →
      replaceGo pat rep f s = replaceGo pat rep g s := by
  induction f with
  | zero =>
    intro s g hf _
    have : s = [] := List.eq_nil_of_length_eq_zero (Nat.le_zero.mp hf)
    subst this
    cases g <;> rfl
  | succ f ih =>
    intro s g hf hg
    match s with
    | [] => cases g <;> rfl
    | c :: cs =>
      match g, hg with
      | g + 1, hg2 =>
        rw [replaceGo, replaceGo]
        have hp1 : pat ≠ [] → pat.length ≠ 0 :=
          fun hne hz => hne (List.eq_nil_of_length_eq_zero hz)
        by_cases hcond : pat ≠ [] ∧ leadsWith pat (c :: cs) = true
        · rw [if_pos hcond, if_pos hcond]
          congr 1
          apply ih
          · simp only [List.length_drop, List.length_cons]
            simp only [List.length_cons] at hf
            have := hp1 hcond.1
            omega
          · simp only [List.length_drop, List.length_cons]
            simp only [List.length_cons] at hg2
            have := hp1 hcond.1
            omega
        · rw [if_neg hcond, if_neg hcond]
          congr 1
          apply ih
          · simp only [List.length_cons] at hf
            omega
          · simp only [List.length_cons] at hg2
            omega

theorem listReplace_append_self (pat rep rest : PyStr) (hp : pat ≠ []) :
    listReplace pat rep (pat ++ rest) = rep ++ listReplace pat rep rest := by
  match pat, hp with
  | p :: ps, _ =>
    rw [listReplace, List.cons_append, List.length_cons, replaceGo]
    have hlw : leadsWith (p :: ps) ((p :: ps) ++ rest) = true :=
      leadsWith_append_self (p :: ps) rest
    rw [List.cons_append] at hlw
    rw [if_pos ⟨by simp, hlw⟩]
    congr 1
    rw [← List.cons_append, List.drop_left]
    apply replaceGo_fuel
    · simp [List.length_append]
    · exact Nat.le_refl _

theorem listReplace_of_not_hasSub (pat rep s : PyStr) (h : hasSub s pat = false) :
    listReplace pat rep s = s := by
  induction s with
  | nil => rfl
  | cons c cs ih =>
    have hub : hasSub (c :: cs) pat =
        (leadsWith pat (c :: cs) || hasSub cs pat) := by
      simp [hasSub, List.tails]
    rw [hub] at h
    have h1 : leadsWith pat (c :: cs) = false := by
      cases hlw : leadsWith pat (c :: cs) <;> simp [hlw] at h ⊢
    have h2 : hasSub cs pat = false := by
      cases hcs : hasSub cs pat <;> simp [hcs] at h ⊢
    rw [listReplace, List.length_cons, replaceGo]
    rw [if_neg (by simp [h1])]
    have hr : replaceGo pat rep cs.length cs = listReplace pat rep cs := rfl
    rw [hr, ih h2]

theorem leadsWith_cons_of_ne {a b : Char} (l l' : PyStr) (h : a ≠ b) :
    leadsWith (a :: l) (b :: l') = false := by
  simp [leadsWith, h]

/-! ## Helper lemmas for the error-translation theorems -/

theorem gvme_dict_data_none (m : Option PyStr) (rest : List ErrArg)
    (lf : Option TraceFrameRaw) :
    get_virtual_machine_error (.dict ⟨m, none⟩ :: rest) lf
      = .ok (translateMessage (pyStrOfOpt m)) := rfl

theorem translate_revert_reason (text : PyStr)
    (h1 : hasSub ("revert ".data ++ text) ganacheHead = false)
    (h2 : hasSub text "revert ".data = false) :
    translateMessage (ganacheHead ++ ("revert ".data ++ text))
      = .contractLogic (some text) := by
  have hgp : ganacheHead = 'V' :: "M Exception while processing transaction: ".data := by
    decide
  have hne : ganacheHead ++ ("revert ".data ++ text) ≠ [] := by
    rw [hgp, List.cons_append]
    exact List.cons_ne_nil _ _
  have hext : leadsWith extHead (ganacheHead ++ ("revert ".data ++ text)) = false := by
    have hep : extHead = 'e' :: ("xecution reverted: ".data ++ ganacheHead) := by decide
    rw [hgp, List.cons_append, hep]
    exact leadsWith_cons_of_ne _ _ (by decide)
  have hgpl : leadsWith ganacheHead (ganacheHead ++ ("revert ".data ++ text)) = true :=
    leadsWith_append_self _ _
  have hrep : listReplace ganacheHead [] (ganacheHead ++ ("revert ".data ++ text))
      = "revert ".data ++ text := by
    rw [listReplace_append_self _ _ _ (by decide), List.nil_append,
        listReplace_of_not_hasSub _ _ _ h1]
  have hneq : ¬("revert ".data ++ text = "revert".data) := by
    intro h
    have hlen := congrArg List.length h
    have l7 : ("revert ".data).length = 7 := by decide
    have l6 : ("revert".data).length = 6 := by decide
    rw [List.length_append, l7, l6] at hlen
    omega
  have hlw2 : leadsWith "revert ".data ("revert ".data ++ text) = true :=
    leadsWith_append_self _ _
  have hrep2 : listReplace "revert ".data [] ("revert ".data ++ text) = text := by
    rw [listReplace_append_self _ _ _ (by decide), List.nil_append,
        listReplace_of_not_hasSub _ _ _ h2]
  unfold translateMessage
  rw [if_neg hne]
  simp only [hext, Bool.false_eq_true, if_false, hgpl, if_true, hrep, hneq, hlw2, hrep2]

theorem translate_no_marker (msg : PyStr)
    (h3 : leadsWith extHead msg = false)
    (h4 : leadsWith ganacheHead msg = false)
    (h5 : msg ≠ []) :
    translateMessage msg = .vm msg := by
  unfold translateMessage
  rw [if_neg h5]
  simp only [h3, h4, Bool.false_eq_true, if_false]

theorem and_right_false (a b : Bool) (hb : b = false) : (a && b) ≠ true := by
  subst hb
  simp

theorem gvme_dict_mapping (m hOpt : Option PyStr) (rest : List ErrArg)
    (lf : Option TraceFrameRaw) :
    get_virtual_machine_error (.dict ⟨m, some (.mapping hOpt)⟩ :: rest) lf
      = .ok (translateMessage (
          if pyTruthyStr hOpt && (pyStrOfOpt m == ganacheHead ++ "revert".data) then
            match lf with
            | some fr =>
              if fr.op == "REVERT".data then
                let sel := ((fr.memory.drop 4).map (fun x => x.drop 2)).flatten
                if sel ≠ [] then ganacheHead ++ "0x".data ++ sel else pyStrOfOpt m
              else pyStrOfOpt m
            | none => pyStrOfOpt m
          else pyStrOfOpt m)) := rfl

theorem translate_zero_x (sel : PyStr)
    (hnogp : hasSub ("0x".data ++ sel) ganacheHead = false) :
    translateMessage (ganacheHead ++ ("0x".data ++ sel))
      = .contractLogic (some ("0x".data ++ sel)) := by
  have hgp : ganacheHead = 'V' :: "M Exception while processing transaction: ".data := by
    decide
  have hne : ganacheHead ++ ("0x".data ++ sel) ≠ [] := by
    rw [hgp, List.cons_append]
    exact List.cons_ne_nil _ _
  have hext : leadsWith extHead (ganacheHead ++ ("0x".data ++ sel)) = false := by
    have hep : extHead = 'e' :: ("xecution reverted: ".data ++ ganacheHead) := by decide
    rw [hgp, List.cons_append, hep]
    exact leadsWith_cons_of_ne _ _ (by decide)
  have hgpl : leadsWith ganacheHead (ganacheHead ++ ("0x".data ++ sel)) = true :=
    leadsWith_append_self _ _
  have hrep : listReplace ganacheHead [] (ganacheHead ++ ("0x".data ++ sel))
      = "0x".data ++ sel := by
    rw [listReplace_append_self _ _ _ (by decide), List.nil_append,
        listReplace_of_not_hasSub _ _ _ hnogp]
  have hx : "0x".data ++ sel = '0' :: ("x".data ++ sel) := rfl
  have hneq : ¬("0x".data ++ sel = "revert".data) := by
    have hrv : "revert".data = 'r' :: "evert".data := rfl
    intro hcontra
    rw [hx, hrv] at hcontra
    simp only [List.cons.injEq] at hcontra
    exact absurd hcontra.1 (by decide)
  have hlw2 : leadsWith "revert ".data ("0x".data ++ sel) = false := by
    have hrv : "revert ".data = 'r' :: "evert ".data := rfl
    rw [hx, hrv]
    exact leadsWith_cons_of_ne _ _ (by decide)
  unfold translateMessage
  rw [if_neg hne]
  simp only [hext, Bool.false_eq_true, if_false, hgpl, if_true, hrep, hneq, hlw2]

/-! ## Claim C1 -/

/-- C1 (counterexample): the claim says a message of the form
`"revert <text>"` (after the Ganache marker) yields a revert reason of
exactly `<text>`; but `str.replace` removes every occurrence of
`"revert "`, so for `<text> = "revert hi"` the code produces reason
`"hi"`, not `"revert hi"`.  Moreover a bare-`"revert"` message with a
transaction hash and a captured REVERT trace frame yields a reason (the
hex selector recovered from the frame memory), not a reason-free error. -/
theorem c1_counterexample :
    get_virtual_machine_error
        [.dict ⟨some (ganacheHead ++ "revert revert hi".data), none⟩] none
      = .ok (.contractLogic (some "hi".data))
    ∧ (VMError.contractLogic (some "hi".data)
        == VMError.contractLogic (some "revert hi".data)) = false
    ∧ get_virtual_machine_error
        [.dict ⟨some (ganacheHead ++ "revert".data), some (.mapping (some "0xabc".data))⟩]
        (some ⟨"REVERT".data,
          ["0x00".data, "0x01".data, "0x02".data, "0x03".data, "0x08c3".data, "0x79a0".data]⟩)
      = .ok (.contractLogic (some "0x08c379a0".data))
    ∧ (VMError.contractLogic (some "0x08c379a0".data) == VMError.contractLogic none) = false :=
  ⟨by decide, by decide, by decide, by decide⟩

/-- C1 (amended): for payloads whose `"data"` value, when present, is a
mapping.  A message equal to exactly the Ganache marker followed by
`"revert"` maps to a logic-failure error with no reason string, unless
that payload carries a truthy transaction hash and the obtainable last
trace frame is a REVERT whose memory words yield a non-empty selector, in
which case the reason is `"0x"` followed by that selector; the trace is
consulted only when the unstripped message equals exactly marker +
`"revert"`, so the `"execution reverted: "`-prefixed bare revert always
maps to a reason-free error, as do a missing frame, a non-REVERT frame and
an empty selector.  A message of the form marker + `"revert <text>"` maps
to a logic-failure error whose reason is `<text>` with every further
occurrence of the marker and of `"revert "` also removed (exactly `<text>`
when those substrings do not reoccur, as hypothesised here).  A non-empty
message matching no recognized marker maps to a generic virtual-machine
error carrying the message unchanged. -/
theorem c1_amended (text msg h : PyStr) (hOpt : Option PyStr)
    (fr fr2 fr3 : TraceFrameRaw) (df : Option PyDataField)
    (lf : Option TraceFrameRaw) (rest : List ErrArg)
    (hdf : df ≠ some PyDataField.nonMapping)
    (h1 : hasSub ("revert ".data ++ text) ganacheHead = false)
    (h2 : hasSub text "revert ".data = false)
    (h3 : leadsWith extHead msg = false)
    (h4 : leadsWith ganacheHead msg = false)
    (h5 : msg ≠ [])
    (hh : h ≠ [])
    (hop : fr.op = "REVERT".data)
    (hsel : ((fr.memory.drop 4).map (fun x => x.drop 2)).flatten ≠ [])
    (hnogp : hasSub ("0x".data ++ ((fr.memory.drop 4).map (fun x => x.drop 2)).flatten)
        ganacheHead = false)
    (hop2 : (fr2.op == "REVERT".data) = false)
    (hop3 : fr3.op = "REVERT".data)
    (hsel3 : ((fr3.memory.drop 4).map (fun x => x.drop 2)).flatten = []) :
    get_virtual_machine_error
        (.dict ⟨some (ganacheHead ++ "revert".data), some (.mapping (some h))⟩ :: rest)
        (some fr)
      = .ok (.contractLogic
          (some ("0x".data ++ ((fr.memory.drop 4).map (fun x => x.drop 2)).flatten)))
    ∧ get_virtual_machine_error
        (.dict ⟨some (ganacheHead ++ "revert".data), some (.mapping hOpt)⟩ :: rest) none
      = .ok (.contractLogic none)
    ∧ get_virtual_machine_error
        (.dict ⟨some (ganacheHead ++ "revert".data), some (.mapping (some h))⟩ :: rest)
        (some fr2)
      = .ok (.contractLogic none)
    ∧ get_virtual_machine_error
        (.dict ⟨some (ganacheHead ++ "revert".data), some (.mapping (some h))⟩ :: rest)
        (some fr3)
      = .ok (.contractLogic none)
    ∧ get_virtual_machine_error
        (.dict ⟨some (ganacheHead ++ "revert".data), none⟩ :: rest) lf
      = .ok (.contractLogic none)
    ∧ get_virtual_machine_error
        (.dict ⟨some (extHead ++ "revert".data), df⟩ :: rest) lf
      = .ok (.contractLogic none)
    ∧ get_virtual_machine_error
        (.dict ⟨some (ganacheHead ++ ("revert ".data ++ text)), df⟩ :: rest) lf
      = .ok (.contractLogic (some text))
    ∧ get_virtual_machine_error (.dict ⟨some msg, df⟩ :: rest) lf
      = .ok (.vm msg) := by
  have hh' : pyTruthyStr (some h) = true := by simp [pyTruthyStr, hh]
  refine ⟨?_, ?_, ?_, ?_, ?_, ?_, ?_, ?_⟩
  · rw [gvme_dict_mapping]
    rw [if_pos (by simp [hh', pyStrOfOpt])]
    simp only [hop, beq_self_eq_true, if_true]
    rw [if_pos hsel, List.append_assoc, translate_zero_x _ hnogp]
  · rw [gvme_dict_mapping]
    cases hc : (pyTruthyStr hOpt
        && (pyStrOfOpt (some (ganacheHead ++ "revert".data)) == ganacheHead ++ "revert".data))
    · rw [if_neg (by simp [hc])]
      decide
    · rw [if_pos (by simp [hc])]
      decide
  · rw [gvme_dict_mapping]
    rw [if_pos (by simp [hh', pyStrOfOpt])]
    simp only [hop2, Bool.false_eq_true, if_false]
    decide
  · rw [gvme_dict_mapping]
    rw [if_pos (by simp [hh', pyStrOfOpt])]
    simp only [hop3, beq_self_eq_true, if_true]
    rw [if_neg (show ¬(((fr3.memory.drop 4).map (fun x => x.drop 2)).flatten ≠ []) from
        fun hc => hc hsel3)]
    decide
  · rw [gvme_dict_data_none]
    decide
  · match df, hdf with
    | none, _ =>
      rw [gvme_dict_data_none]
      decide
    | some (.mapping hd), _ =>
      rw [gvme_dict_mapping]
      have hcf : (pyStrOfOpt (some (extHead ++ "revert".data))
          == ganacheHead ++ "revert".data) = false := by decide
      rw [if_neg (and_right_false _ _ hcf)]
      decide
  · match df, hdf with
    | none, _ =>
      rw [gvme_dict_data_none]
      show Except.ok (translateMessage (ganacheHead ++ ("revert ".data ++ text))) = _
      rw [translate_revert_reason text h1 h2]
    | some (.mapping hd), _ =>
      rw [gvme_dict_mapping]
      have hm4 : (pyStrOfOpt (some (ganacheHead ++ ("revert ".data ++ text)))
          == ganacheHead ++ "revert".data) = false := by
        simp only [pyStrOfOpt]
        rw [beq_eq_false_iff_ne]
        intro hcontra
        have hlen := congrArg List.length hcontra
        simp only [List.length_append] at hlen
        have e1 : ("revert ".data).length = 7 := by decide
        have e2 : ("revert".data).length = 6 := by decide
        rw [e1, e2] at hlen
        omega
      rw [if_neg (and_right_false _ _ hm4)]
      show Except.ok (translateMessage (ganacheHead ++ ("revert ".data ++ text))) = _
      rw [translate_revert_reason text h1 h2]
  · match df, hdf with
    | none, _ =>
      rw [gvme_dict_data_none]
      show Except.ok (translateMessage msg) = _
      rw [translate_no_marker msg h3 h4 h5]
    | some (.mapping hd), _ =>
      rw [gvme_dict_mapping]
      have hm5 : (pyStrOfOpt (some msg) == ganacheHead ++ "revert".data) = false := by
        simp only [pyStrOfOpt]
        rw [beq_eq_false_iff_ne]
        intro hcontra
        rw [hcontra, leadsWith_append_self] at h4
        exact Bool.noConfusion h4
      rw [if_neg (and_right_false _ _ hm5)]
      show Except.ok (translateMessage msg) = _
      rw [translate_no_marker msg h3 h4 h5]

/-- C1 (witness): the amended theorem applied at
`text = "Insufficient balance"`, `msg = "out of gas"`, hash `"0xabc"`, the
data-bearing payload `data = mapping with hash "0xabc"`, and the concrete
frames `frRevert` (REVERT with selector `08c379a0`), `frPush` (non-REVERT)
and `frEmpty` (REVERT, empty selector). -/
theorem c1_amended_witness :
    (some (PyDataField.mapping (some "0xabc".data)) ≠ some PyDataField.nonMapping
      ∧ hasSub ("revert ".data ++ "Insufficient balance".data) ganacheHead = false
      ∧ hasSub "Insufficient balance".data "revert ".data = false
      ∧ leadsWith extHead "out of gas".data = false
      ∧ leadsWith ganacheHead "out of gas".data = false
      ∧ "out of gas".data ≠ []
      ∧ "0xabc".data ≠ []
      ∧ frRevert.op = "REVERT".data
      ∧ ((frRevert.memory.drop 4).map (fun x => x.drop 2)).flatten ≠ []
      ∧ hasSub ("0x".data ++ ((frRevert.memory.drop 4).map (fun x => x.drop 2)).flatten)
          ganacheHead = false
      ∧ (frPush.op == "REVERT".data) = false
      ∧ frEmpty.op = "REVERT".data
      ∧ ((frEmpty.memory.drop 4).map (fun x => x.drop 2)).flatten = [])
    ∧ (get_virtual_machine_error
          [ErrArg.dict ⟨some (ganacheHead ++ "revert".data),
            some (.mapping (some "0xabc".data))⟩] (some frRevert)
        = .ok (.contractLogic
            (some ("0x".data ++ ((frRevert.memory.drop 4).map (fun x => x.drop 2)).flatten)))
      ∧ get_virtual_machine_error
          [ErrArg.dict ⟨some (ganacheHead ++ "revert".data),
            some (.mapping (some "0xabc".data))⟩] none
        = .ok (.contractLogic none)
      ∧ get_virtual_machine_error
          [ErrArg.dict ⟨some (ganacheHead ++ "revert".data),
            some (.mapping (some "0xabc".data))⟩] (some frPush)
        = .ok (.contractLogic none)
      ∧ get_virtual_machine_error
          [ErrArg.dict ⟨some (ganacheHead ++ "revert".data),
            some (.mapping (some "0xabc".data))⟩] (some frEmpty)
        = .ok (.contractLogic none)
      ∧ get_virtual_machine_error
          [ErrArg.dict ⟨some (ganacheHead ++ "revert".data), none⟩] none
        = .ok (.contractLogic none)
      ∧ get_virtual_machine_error
          [ErrArg.dict ⟨some (extHead ++ "revert".data),
            some (.mapping (some "0xabc".data))⟩] none
        = .ok (.contractLogic none)
      ∧ get_virtual_machine_error
          [ErrArg.dict ⟨some (ganacheHead ++ ("revert ".data ++ "Insufficient balance".data)),
            some (.mapping (some "0xabc".data))⟩] none
        = .ok (.contractLogic (some "Insufficient balance".data))
      ∧ get_virtual_machine_error
          [ErrArg.dict ⟨some "out of gas".data,
            some (.mapping (some "0xabc".data))⟩] none
        = .ok (.vm "out of gas".data)) :=
  ⟨⟨by decide, by decide, by decide, by decide, by decide, by decide, by decide,
    by decide, by decide, by decide, by decide, by decide, by decide⟩,
   c1_amended "Insufficient balance".data "out of gas".data "0xabc".data
     (some "0xabc".data) frRevert frPush frEmpty
     (some (PyDataField.mapping (some "0xabc".data))) none []
     (by decide) (by decide) (by decide) (by decide) (by decide) (by decide)
     (by decide) (by decide) (by decide) (by decide) (by decide) (by decide) (by decide)⟩

/-! ## Claim C10 -/

/-- C10 (counterexample): the claim says an empty extracted message always
yields the base-wrapped virtual-machine error without raising; but a
payload whose `"data"` value is a non-mapping makes the code raise
`AttributeError` (from `.get("hash")`) before the empty-message check. -/
theorem c10_counterexample :
    get_virtual_machine_error [.dict ⟨some [], some .nonMapping⟩] none
      = .error .attributeError := by decide

/-- C10 (amended): the translation returns the base-wrapped
virtual-machine error — without raising — for an empty argument list, for a
first argument that is neither a mapping nor a string, for a string first
argument that is empty, and for a mapping first argument with an empty
extracted message provided its `"data"` value, when present, is a
mapping. -/
theorem c10_amended (rest : List ErrArg) (lf : Option TraceFrameRaw)
    (d : ErrData) (hmsg : pyStrOfOpt d.message = [])
    (hdata : d.data ≠ some PyDataField.nonMapping) :
    get_virtual_machine_error [] lf = .ok .vmBase
    ∧ get_virtual_machine_error (.otherVal :: rest) lf = .ok .vmBase
    ∧ get_virtual_machine_error (.str [] :: rest) lf = .ok .vmBase
    ∧ get_virtual_machine_error (.dict d :: rest) lf = .ok .vmBase := by
  refine ⟨rfl, rfl, rfl, ?_⟩
  obtain ⟨m, dd⟩ := d
  simp only at hmsg hdata
  match dd with
  | none =>
    rw [gvme_dict_data_none, hmsg]
    decide
  | some (.mapping h) =>
    have hfalse : (pyStrOfOpt m == ganacheHead ++ "revert".data) = false := by
      rw [hmsg]
      decide
    simp [get_virtual_machine_error, hfalse, hmsg]
    rfl
  | some .nonMapping =>
    exact absurd rfl hdata

/-- C10 (witness): the amended theorem applied at a payload with message
`""` and no `"data"` key. -/
theorem c10_amended_witness :
    (pyStrOfOpt (ErrData.mk (some []) none).message = []
      ∧ (ErrData.mk (some []) none).data ≠ some PyDataField.nonMapping)
    ∧ (get_virtual_machine_error [] none = .ok .vmBase
      ∧ get_virtual_machine_error [.otherVal] none = .ok .vmBase
      ∧ get_virtual_machine_error [.str []] none = .ok .vmBase
      ∧ get_virtual_machine_error [.dict ⟨some [], none⟩] none = .ok .vmBase) :=
  ⟨⟨by decide, by decide⟩, c10_amended [] none ⟨some [], none⟩ (by decide) (by decide)⟩

/-! ## Claim C2 -/

theorem data_gas_eq (l : List Nat) :
    ((l.map (fun x => if x = 0 then (4 : Int) else 16)).sum)
      = 4 * (l.countP (fun x => x == 0) : Int) + 16 * (l.countP (fun x => x != 0) : Int) := by
  induction l with
  | nil => simp
  | cons c cs ih =>
    by_cases hc : c = 0
    · simp [hc, List.countP_cons, ih]
      ring
    · simp [hc, List.countP_cons, ih]
      ring

/-- C2: for every receipt and every builder outcome, the method gas cost
handed to the tree builder is `gas_used - 21000 -` the calldata cost (4 per
zero byte, 16 per non-zero byte); the call type is contract-creation
exactly when the receipt names a (truthy) contract address, with the
address taken from the receipt accordingly; and the returned root's
`failed` flag equals the receipt's own failure status no matter what the
builder produced from the raw trace. -/
theorem c2_call_tree {α : Type} (builder : BuildArgs → EvmCallNode α) (r : Receipt) :
    (get_call_tree builder r).failed = r.failed
    ∧ (get_call_tree builder r).payload = (builder (call_tree_args r)).payload
    ∧ (call_tree_args r).gas_cost
        = r.gas_used - 21000
          - (4 * (r.data.countP (fun x => x == 0) : Int)
             + 16 * (r.data.countP (fun x => x != 0) : Int))
    ∧ ((call_tree_args r).call_type = CallType.createOp
        ↔ pyTruthyAddr r.contract_address = true)
    ∧ (∀ a, r.contract_address = some a → a ≠ "" → (call_tree_args r).address = a)
    ∧ (pyTruthyAddr r.contract_address = false → (call_tree_args r).address = r.receiver) := by
  refine ⟨rfl, rfl, ?_, ?_, ?_, ?_⟩
  · unfold call_tree_args
    by_cases h : pyTruthyAddr r.contract_address = true <;> simp [h, data_gas_eq]
  · unfold call_tree_args
    by_cases h : pyTruthyAddr r.contract_address = true <;> simp [h]
  · intro a ha hne
    unfold call_tree_args
    have ht : pyTruthyAddr (some a) = true := by simp [pyTruthyAddr, hne]
    simp [ha, ht]
  · intro hf
    unfold call_tree_args
    simp [hf]

/-- C2 (witness): the theorem applied to `receiptExample` (a failed deploy
receipt with calldata `[0, 1, 0, 255]`) and a builder that inverts the
failure flag. -/
theorem c2_call_tree_witness :
    (get_call_tree builderExample receiptExample).failed = true
    ∧ (call_tree_args receiptExample).gas_cost = 60000 - 21000 - (4 * 2 + 16 * 2)
    ∧ (call_tree_args receiptExample).call_type = CallType.createOp
    ∧ (call_tree_args receiptExample).address = "0xNew" :=
  ⟨(c2_call_tree builderExample receiptExample).1,
   by
     have h := (c2_call_tree builderExample receiptExample).2.2.1
     rw [h]
     decide,
   ((c2_call_tree builderExample receiptExample).2.2.2.1).mpr (by decide),
   (c2_call_tree builderExample receiptExample).2.2.2.2.1 "0xNew" rfl (by decide)⟩

/-! ## Claim C3 -/

/-- C3 (counterexample): the claim says the URI is never usable before a
live connection has been confirmed; but `uri` reads only `self.port`, so a
session with a bound port and no connection handle already serves the
URI. -/
theorem c3_counterexample :
    uri ⟨PortV.num 8545, none⟩ = .ok "http://127.0.0.1:8545" := by decide

/-- C3 (amended): with a (non-zero) bound port the URI is exactly
`http://127.0.0.1:<port>`; with no port (or port `0`) requesting the URI
raises the not-connected error, never returning a placeholder; and
availability depends only on the port, not on a confirmed connection. -/
theorem c3_amended (p : Int) (w : Option Unit) (hp : p ≠ 0) :
    uri ⟨PortV.num p, w⟩ = .ok ("http://127.0.0.1:" ++ portStr (PortV.num p))
    ∧ uri ⟨PortV.noneV, w⟩ = .error .notConnectedError
    ∧ uri ⟨PortV.num 0, w⟩ = .error .notConnectedError
    ∧ (∀ w1 w2 : Option Unit, uri ⟨PortV.num p, w1⟩ = uri ⟨PortV.num p, w2⟩) := by
  refine ⟨?_, rfl, rfl, fun w1 w2 => rfl⟩
  simp [uri, uriOfPort, pyTruthyPort, hp]

/-- C3 (witness): the amended theorem applied at port 8545. -/
theorem c3_amended_witness :
    ((8545 : Int) ≠ 0)
    ∧ uri ⟨PortV.num 8545, some ()⟩ = .ok ("http://127.0.0.1:" ++ portStr (PortV.num 8545))
    ∧ uri ⟨PortV.noneV, some ()⟩ = .error .notConnectedError :=
  ⟨by decide, (c3_amended 8545 (some ()) (by decide)).1,
   (c3_amended 8545 (some ()) (by decide)).2.1⟩

/-! ## Claim C4 -/

/-- C4 (code evaluated at the failing input): with the `"auto"` sentinel
and an empty attempted-ports list (the default port 8545 never tried),
resolution still takes the random draw (here 50000) instead of the default
port — the default-port branch is dead because its `not use_random_port`
conjunct is evaluated where `use_random_port` is `True`. -/
theorem c4_auto_skips_default :
    start_resolve_port PortV.auto [] (fun _ => 50000)
        = .ok (PortV.num 50000, [PortV.num 50000])
    ∧ (PortV.num 50000 == PortV.num DEFAULT_PORT) = false :=
  ⟨by decide, by decide⟩

/-! ## Claim C5 -/

/-- C5 (code evaluated at the failing input): with the `"auto"` sentinel,
an attempted-ports list `[49152]`, and every draw colliding, the 25th
collision makes `", ".join(self.attempted_ports)` raise `TypeError`
(the list holds integers, not strings), so the descriptive
`GanacheProviderError` enumerating the tried ports is never built. -/
theorem c5_exhaustion_type_error :
    start_resolve_port PortV.auto [PortV.num 49152] (fun _ => 49152)
        = .error .typeError :=
  by decide

/-! ## Claim C6 -/

/-- C6: for every integer timestamp and every encoder, `set_timestamp`
dispatches `evm_setTime` with the encoding of the input multiplied by 1000
(seconds to milliseconds) as its single parameter. -/
theorem c6_set_timestamp (encode : Int → String) (t : Int) :
    set_timestamp encode t = ("evm_setTime", [encode (t * 1000)]) := by
  show ("evm_setTime", [encode (t * 10 ^ 3)]) = _
  norm_num

/-! ## Claim C7 -/

/-- C7: building the fork launch command fails (with a configuration
error, before any command exists to spawn) exactly when the upstream URL
after `localhost → 127.0.0.1` replacement equals the local node's own URI;
otherwise the command is the base command extended with `--fork.url
<fork_url>`, plus `--fork.blockNumber <n>` exactly when a fork block
number is configured. -/
theorem c7_fork_command (g : GanacheSettings) (fork_url : String) (bn : Option Int)
    (hp : pyTruthyPort g.port = true) :
    (pyStrReplace fork_url "localhost" "127.0.0.1" = "http://127.0.0.1:" ++ portStr g.port →
      fork_build_command g fork_url bn = .error .invalidForkUrl)
    ∧ (pyStrReplace fork_url "localhost" "127.0.0.1" ≠ "http://127.0.0.1:" ++ portStr g.port →
      fork_build_command g fork_url bn
        = .ok (build_command g ++ ["--fork.url", fork_url] ++ fork_block_args bn))
    ∧ fork_block_args none = []
    ∧ (∀ n : Int, fork_block_args (some n) = ["--fork.blockNumber", toString n]) := by
  refine ⟨?_, ?_, rfl, fun n => rfl⟩
  · intro heq
    simp [fork_build_command, uriOfPort, hp, heq]
  · intro hne
    simp [fork_build_command, uriOfPort, hp, hne]

/-- C7 (witness): the theorem applied to `gExample` (port 8545) with the
colliding upstream URL `http://localhost:8545` and with a distinct
upstream URL plus a configured fork block number. -/
theorem c7_fork_command_witness :
    pyTruthyPort gExample.port = true
    ∧ fork_build_command gExample "http://localhost:8545" none = .error .invalidForkUrl
    ∧ fork_build_command gExample "http://example.org:7777" (some 5)
        = .ok (build_command gExample ++ ["--fork.url", "http://example.org:7777"]
               ++ fork_block_args (some 5)) :=
  ⟨by decide,
   (c7_fork_command gExample "http://localhost:8545" none (by decide)).1 (by decide),
   (c7_fork_command gExample "http://example.org:7777" (some 5) (by decide)).2.1 (by decide)⟩

/-! ## Claim C8 -/

/-- C8: whenever the upstream genesis hash was obtained (directly, or via
the PoA-middleware retry) and differs from the local genesis hash, connect
still succeeds — the mismatch surfaces only as the logged warning, never
as an error. -/
theorem c8_genesis_mismatch_warns (lh uh : Nat) (isW : Bool) (f2 : FetchOutcome)
    (hne : lh ≠ uh) :
    fork_connect_check lh (.got uh) isW f2 = .ok [mismatchWarning]
    ∧ fork_connect_check lh .extraDataLengthError true (.got uh) = .ok [mismatchWarning] := by
  constructor <;> simp [fork_connect_check, hne] <;> rfl

/-- C8 (witness): the theorem applied at local hash 1 and upstream hash 2. -/
theorem c8_genesis_mismatch_warns_witness :
    ((1 : Nat) ≠ 2)
    ∧ fork_connect_check 1 (.got 2) false (.got 2) = .ok [mismatchWarning]
    ∧ fork_connect_check 1 .extraDataLengthError true (.got 2) = .ok [mismatchWarning] :=
  ⟨by decide, (c8_genesis_mismatch_warns 1 2 false (.got 2) (by decide)).1,
   (c8_genesis_mismatch_warns 1 2 false (.got 2) (by decide)).2⟩

/-! ## Claim C9 -/

theorem pyIsNumeric_of_decimal (s : PyStr) (hd : pyIsDecimal s = true) :
    pyIsNumeric s = true := by
  simp only [pyIsDecimal, Bool.and_eq_true] at hd
  simp only [pyIsNumeric, Bool.and_eq_true]
  obtain ⟨hne, hall⟩ := hd
  refine ⟨hne, ?_⟩
  rw [List.all_eq_true] at hall ⊢
  intro c hc
  have hcv := hall c hc
  simp only at hcv
  simp [pyCharNumeric, hcv]

/-- C9 (counterexample): the claim says a string consisting only of
numeric characters is coerced to an integer before dispatch; but for the
vulgar fraction U+00BD and the Roman numeral U+216B — both isnumeric-true
strings — `int()` raises `ValueError`, so nothing is dispatched at all. -/
theorem c9_counterexample :
    pyIsNumeric "½".data = true
    ∧ revert (.str "½".data) = .error .valueError
    ∧ pyIsNumeric "Ⅻ".data = true
    ∧ revert (.str "Ⅻ".data) = .error .valueError :=
  ⟨by decide, by decide, by decide, by decide⟩

/-- C9 (amended): a snapshot id that is a string of decimal digit
characters (ASCII or Arabic-Indic) is coerced with `int(...)` to the
integer it denotes before the `evm_revert` dispatch; a string of numeric
characters not all of which are decimal digits passes the isnumeric test
but makes `int(...)` raise `ValueError`, so nothing is dispatched; any
other id — non-numeric string, integer, bytes — is dispatched
unchanged. -/
theorem c9_amended (sd s t : PyStr) (n : Int) (b : List Nat)
    (hsd : pyIsDecimal sd = true)
    (hs1 : pyIsNumeric s = true)
    (hs2 : pyIsDecimal s = false)
    (ht : pyIsNumeric t = false) :
    revert (.str sd) = .ok ("evm_revert", [SnapshotID.int (pyIntVal sd)])
    ∧ revert (.str s) = .error .valueError
    ∧ revert (.str t) = .ok ("evm_revert", [SnapshotID.str t])
    ∧ revert (.int n) = .ok ("evm_revert", [SnapshotID.int n])
    ∧ revert (.bytes b) = .ok ("evm_revert", [SnapshotID.bytes b]) := by
  refine ⟨?_, ?_, ?_, rfl, rfl⟩
  · have hnum := pyIsNumeric_of_decimal sd hsd
    simp [revert, pyInt, hnum, hsd]
  · simp [revert, pyInt, hs1, hs2]
  · simp [revert, ht]
    rfl

/-- C9 (witness): the amended theorem applied at the Arabic-Indic digit
string U+0664 U+0662 (which `int()` maps to 42), the numeric-but-not-
decimal string U+00BD, and the non-numeric string "0x1". -/
theorem c9_amended_witness :
    (pyIsDecimal "٤٢".data = true
      ∧ pyIsNumeric "½".data = true
      ∧ pyIsDecimal "½".data = false
      ∧ pyIsNumeric "0x1".data = false
      ∧ pyIntVal "٤٢".data = 42)
    ∧ (revert (.str "٤٢".data) = .ok ("evm_revert", [SnapshotID.int (pyIntVal "٤٢".data)])
      ∧ revert (.str "½".data) = .error .valueError
      ∧ revert (.str "0x1".data) = .ok ("evm_revert", [SnapshotID.str "0x1".data])
      ∧ revert (.int 7) = .ok ("evm_revert", [SnapshotID.int 7])
      ∧ revert (.bytes [1]) = .ok ("evm_revert", [SnapshotID.bytes [1]])) :=
  ⟨⟨by decide, by decide, by decide, by decide, by decide⟩,
   c9_amended "٤٢".data "½".data "0x1".data 7 [1]
     (by decide) (by decide) (by decide) (by decide)⟩

end ApeGanache
